import Mathlib

/-!
Verification of the Fix-OS MCP server (`src/main.py`): a shallow embedding of
its two tool operations, `search_device_manual` and `get_repair_steps`, and of
the Python semantics they rely on (dict `.get` with defaults, truthiness,
list indexing, `" ".join`, `str()` rendering), together with theorems settling
the frozen claims about validation, error handling and response shaping.
-/

/-- Python runtime values as they exist after `response.json()`: JSON `null`
becomes Python `None`, objects become dicts with string keys, arrays become
lists.  This one type also represents the shaped output structures the code
builds before `str()` is applied. -/
inductive PyVal where
  | none : PyVal
  | bool (b : Bool) : PyVal
  | int (n : Int) : PyVal
  | str (s : String) : PyVal
  | list (xs : List PyVal) : PyVal
  | dict (fields : List (String × PyVal)) : PyVal

/-- Exceptions the shaping code can raise; `msg` is Python `str(e)`. -/
inductive PyErr where
  | attributeError (msg : String) : PyErr
  | typeError (msg : String) : PyErr
  | indexError (msg : String) : PyErr
  | keyError (msg : String) : PyErr
deriving DecidableEq, Repr

/-- `str(e)` of a caught exception, as used by the `except Exception` handlers. -/
def PyErr.msg : PyErr → String
  | .attributeError m => m
  | .typeError m => m
  | .indexError m => m
  | .keyError m => m

/-- A single-quote character, built numerically. -/
def pyQuote : String := (Char.ofNat 39).toString

/-- Python type name, for exception messages. -/
def PyVal.typeName : PyVal → String
  | .none => "NoneType"
  | .bool _ => "bool"
  | .int _ => "int"
  | .str _ => "str"
  | .list _ => "list"
  | .dict _ => "dict"

/-- Message of the `AttributeError` raised by `x.get(...)` when `x` is not a
dict: `'T' object has no attribute 'get'`. -/
def noGetAttrMsg (v : PyVal) : String :=
  pyQuote ++ v.typeName ++ pyQuote ++ " object has no attribute " ++ pyQuote ++ "get" ++ pyQuote

/-- Python `x.get(k, d)` (with `d` defaulting to `None` at call sites that
pass no default): succeeds only on dicts; a present key wins even when its
value is `None`; a missing key yields the default. -/
def pyGet (v : PyVal) (k : String) (d : PyVal) : Except PyErr PyVal :=
  match v with
  | .dict fs => .ok (((fs.lookup k).getD d))
  | other => .error (.attributeError (noGetAttrMsg other))

/-- Python `for x in v`: lists iterate their elements, strings their
characters, dicts their keys; other values raise `TypeError`. -/
def pyIter (v : PyVal) : Except PyErr (List PyVal) :=
  match v with
  | .list xs => .ok xs
  | .str s => .ok (s.toList.map (fun c => .str c.toString))
  | .dict fs => .ok (fs.map (fun kv => .str kv.1))
  | other => .error (.typeError (pyQuote ++ other.typeName ++ pyQuote ++ " object is not iterable"))

/-- Python `v[0]` as used on `media.data`: empty list raises
`IndexError: list index out of range`. -/
def pyIndexZero (v : PyVal) : Except PyErr PyVal :=
  match v with
  | .list [] => .error (.indexError "list index out of range")
  | .list (x :: _) => .ok x
  | .str s =>
    match s.toList with
    | [] => .error (.indexError "string index out of range")
    | c :: _ => .ok (.str c.toString)
  | .dict _ => .error (.keyError "0")
  | other => .error (.typeError (pyQuote ++ other.typeName ++ pyQuote ++ " object is not subscriptable"))

/-- Python truthiness, as used by the `if t.get("text")` comprehension filters. -/
def PyVal.truthy : PyVal → Bool
  | .none => false
  | .bool b => b
  | .int n => n != 0
  | .str s => !s.isEmpty
  | .list xs => !xs.isEmpty
  | .dict fs => !fs.isEmpty

/-- Python `sep.join(xs)`: every element must be a `str`, otherwise
`TypeError`; auxiliary pass collecting the strings (index `i` for the
message). -/
def pyJoinStrs (i : Nat) : List PyVal → Except PyErr (List String)
  | [] => .ok []
  | .str s :: rest => do
    let ss ← pyJoinStrs (i + 1) rest
    .ok (s :: ss)
  | other :: _ =>
    .error (.typeError ("sequence item " ++ toString i ++ ": expected str instance, "
      ++ other.typeName ++ " found"))

/-- Python `sep.join(xs)`. -/
def pyJoin (sep : String) (xs : List PyVal) : Except PyErr String := do
  let ss ← pyJoinStrs 0 xs
  .ok (String.intercalate sep ss)

/-- `mapM` over `Except`, written recursively so proofs unfold definitionally;
models building a Python list by iterating and transforming each element,
stopping at the first raised exception. -/
def exceptMap (f : PyVal → Except PyErr α) : List PyVal → Except PyErr (List α)
  | [] => .ok []
  | x :: xs => do
    let y ← f x
    let ys ← exceptMap f xs
    .ok (y :: ys)

theorem except_bind_ok {α β : Type} (a : α) (f : α → Except PyErr β) :
    (Except.ok a >>= f) = f a := rfl

theorem except_bind_error {α β : Type} (e : PyErr) (f : α → Except PyErr β) :
    ((Except.error e : Except PyErr α) >>= f) = .error e := rfl

/-- Hex digit for `\xhh` escapes in Python string repr. -/
def hexDigit (n : Nat) : Char :=
  if n < 10 then Char.ofNat (48 + n) else Char.ofNat (87 + n)

/-- Escape one character the way Python repr does inside quote `q`
(printable-ASCII scope: backslash, the quote, newline, carriage return, tab,
and other control characters as hex escapes). -/
def pyEscapeChar (q : Char) (c : Char) : String :=
  if c = '\\' then "\\\\"
  else if c = q then "\\" ++ q.toString
  else if c = Char.ofNat 10 then "\\n"
  else if c = Char.ofNat 13 then "\\r"
  else if c = Char.ofNat 9 then "\\t"
  else if c.toNat < 32 || c.toNat = 127 then
    "\\x" ++ (hexDigit (c.toNat / 16)).toString ++ (hexDigit (c.toNat % 16)).toString
  else c.toString

/-- Python `repr` of a `str`: single quotes, unless the string contains a
single quote and no double quote. -/
def pyReprStr (s : String) : String :=
  let q : Char :=
    if s.toList.contains (Char.ofNat 39) && !(s.toList.contains (Char.ofNat 34)) then
      Char.ofNat 34
    else Char.ofNat 39
  q.toString ++ String.join (s.toList.map (pyEscapeChar q)) ++ q.toString

mutual

/-- Python `str()` of the shaped structures (for dicts and lists `str` is
`repr`): `None`, quoted strings, `[a, b]`, `\x7b'k': v\x7d`. -/
def PyVal.pyRepr : PyVal → String
  | .none => "None"
  | .bool true => "True"
  | .bool false => "False"
  | .int n => toString n
  | .str s => pyReprStr s
  | .list xs => "[" ++ String.intercalate ", " (pyReprList xs) ++ "]"
  | .dict fs => "\x7b" ++ String.intercalate ", " (pyReprFields fs) ++ "\x7d"

def pyReprList : List PyVal → List String
  | [] => []
  | x :: xs => x.pyRepr :: pyReprList xs

def pyReprFields : List (String × PyVal) → List String
  | [] => []
  | (k, v) :: fs => (pyReprStr k ++ ": " ++ v.pyRepr) :: pyReprFields fs

end

/-- iFixit API base URL (`BASE_URL` in `main.py`). -/
def BASE_URL : String := "https://www.ifixit.com/api/2.0"

/-- Fixed request headers (`HEADERS` in `main.py`). -/
def HEADERS : List (String × String) :=
  [("User-Agent", "Fix-OS-Hackathon/1.0 (Student Project)"),
   ("Accept", "application/json")]

/-- Request timeout in seconds (`API_TIMEOUT` in `main.py`). -/
def API_TIMEOUT : Nat := 30

/-- Declared but never consulted by either operation (`MAX_RETRIES` in
`main.py`); no retry logic exists. -/
def MAX_RETRIES : Nat := 3

/-- ASCII whitespace as recognised by Python `str.strip()`:
space, tab, newline, carriage return, vertical tab, form feed. -/
def pyIsSpace (c : Char) : Bool :=
  c.toNat == 32 || c.toNat == 9 || c.toNat == 10 || c.toNat == 13
    || c.toNat == 11 || c.toNat == 12

/-- Python `str.strip()` with no argument (ASCII-whitespace scope): drop
leading and trailing whitespace characters. -/
def pyStrip (s : String) : String :=
  String.mk (((s.data.dropWhile pyIsSpace).reverse.dropWhile pyIsSpace).reverse)

/-- The timeout error string both operations return. -/
def timeoutMessage : String :=
  "Error: Request timed out after " ++ toString API_TIMEOUT ++ " seconds. Please try again."

/-- An outbound HTTP request as issued by `httpx.AsyncClient.get`. -/
structure Request where
  method : String
  url : String
  headers : List (String × String)

/-- Outcome of the single HTTP call an operation makes: the client timed out,
a response arrived (with status code and `response.json()` result, which may
itself be a decode failure carrying `str(e)`), or some other transport
exception was raised (carrying `str(e)`). -/
inductive HttpOutcome where
  | timeout : HttpOutcome
  | response (status : Nat) (body : Except String PyVal) : HttpOutcome
  | otherError (msg : String) : HttpOutcome

/-- Shaping of one search result item (`guide_info` in `main.py` lines 63-68):
`guideid`/`title`/`summary` via `.get`, and `image_url` from
`item.get("image", \x7b\x7d).get("standard")`. -/
def shapeSearchItem (item : PyVal) : Except PyErr PyVal := do
  let gid ← pyGet item "guideid" .none
  let title ← pyGet item "title" .none
  let summary ← pyGet item "summary" .none
  let img ← pyGet item "image" (.dict [])
  let imgStd ← pyGet img "standard" .none
  .ok (.dict [("guide_id", gid), ("title", title), ("summary", summary),
              ("image_url", imgStd)])

/-- The whole search shaping loop (`main.py` lines 61-69): iterate
`data.get("results", [])`, shaping each item in order. -/
def shapeSearchResults (data : PyVal) : Except PyErr (List PyVal) := do
  let resultsV ← pyGet data "results" (.list [])
  let items ← pyIter resultsV
  exceptMap shapeSearchItem items

/-- The shaped form of one step, mirroring the per-step dict literal in
`main.py` lines 123-130. -/
structure StepData where
  step_number : PyVal
  instruction : String
  image : PyVal

/-- The shaped guide, mirroring the `guide_data` dict in `main.py`
lines 111-133. -/
structure GuideData where
  title : PyVal
  difficulty : PyVal
  tools_required : List PyVal
  parts_required : List PyVal
  steps : List StepData

/-- A `text`-field list comprehension
(`[t.get("text") for t in v if t.get("text")]`), as used for both `tools`
and `parts`. -/
def shapeTextList (v : PyVal) : Except PyErr (List PyVal) := do
  let xs ← pyIter v
  let ts ← exceptMap (fun t => pyGet t "text" .none) xs
  .ok (ts.filter PyVal.truthy)

/-- The `instruction` expression of a step (`main.py` lines 125-128):
join with a single space the truthy `text_raw` values of
`step.get("lines", [])`. -/
def stepInstruction (step : PyVal) : Except PyErr String := do
  let linesV ← pyGet step "lines" (.list [])
  let ls ← pyIter linesV
  let frags ← exceptMap (fun l => pyGet l "text_raw" .none) ls
  pyJoin " " (frags.filter PyVal.truthy)

/-- The `image` expression of a step (`main.py` line 129):
`step.get("media", \x7b\x7d).get("data", [\x7b\x7d])[0].get("standard")` —
note the `[\x7b\x7d]` default applies only when the `data` KEY is absent;
a present empty list reaches `[0]` and raises `IndexError`. -/
def stepImage (step : PyVal) : Except PyErr PyVal := do
  let media ← pyGet step "media" (.dict [])
  let dataV ← pyGet media "data" (.list [.dict []])
  let first ← pyIndexZero dataV
  pyGet first "standard" .none

/-- Shaping of one step: the dict literal of `main.py` lines 123-130, whose
values are evaluated in source order `step_number`, `instruction`, `image`. -/
def shapeStep (step : PyVal) : Except PyErr StepData := do
  let sn ← pyGet step "orderby" .none
  let instr ← stepInstruction step
  let img ← stepImage step
  .ok ⟨sn, instr, img⟩

/-- The `tools_required` expression (`main.py` lines 114-117). -/
def guideTools (data : PyVal) : Except PyErr (List PyVal) := do
  let v ← pyGet data "tools" (.list [])
  shapeTextList v

/-- The `parts_required` expression (`main.py` lines 118-121). -/
def guideParts (data : PyVal) : Except PyErr (List PyVal) := do
  let v ← pyGet data "parts" (.list [])
  shapeTextList v

/-- The `steps` expression (`main.py` lines 122-132). -/
def guideSteps (data : PyVal) : Except PyErr (List StepData) := do
  let v ← pyGet data "steps" (.list [])
  let xs ← pyIter v
  exceptMap shapeStep xs

/-- The whole `guide_data` construction (`main.py` lines 111-133), evaluating
the five entries in source order. -/
def shapeGuide (data : PyVal) : Except PyErr GuideData := do
  let title ← pyGet data "title" .none
  let difficulty ← pyGet data "difficulty" .none
  let tools ← guideTools data
  let parts ← guideParts data
  let steps ← guideSteps data
  .ok ⟨title, difficulty, tools, parts, steps⟩

/-- The Python dict a shaped step is, for `str()` rendering. -/
def StepData.toPyVal (sd : StepData) : PyVal :=
  .dict [("step_number", sd.step_number), ("instruction", .str sd.instruction),
         ("image", sd.image)]

/-- The Python dict `guide_data` is, for `str()` rendering. -/
def GuideData.toPyVal (g : GuideData) : PyVal :=
  .dict [("title", g.title), ("difficulty", g.difficulty),
         ("tools_required", .list g.tools_required),
         ("parts_required", .list g.parts_required),
         ("steps", .list (g.steps.map StepData.toPyVal))]

/-- The `search_device_manual` tool (`main.py` lines 33-82): validates the
device name, issues at most one GET (the returned list of requests), and maps
the call outcome to the returned text exactly as the `try`/`except` chain
does.  `raise_for_status` raises for every non-2xx status. -/
def search_device_manual (device_name : String) (oracle : HttpOutcome) :
    List Request × String :=
  if device_name.isEmpty || (pyStrip device_name).isEmpty then
    ([], "Error: Device name cannot be empty")
  else
    let device_name_clean := pyStrip device_name
    let url := BASE_URL ++ "/suggest/" ++ device_name_clean ++ "?doctypes=guide&limit=5"
    let issued := [Request.mk "GET" url HEADERS]
    match oracle with
    | .timeout => (issued, timeoutMessage)
    | .otherError m => (issued, "Error searching for device: " ++ m)
    | .response status body =>
      if 200 ≤ status && status ≤ 299 then
        match body with
        | .error m => (issued, "Error searching for device: " ++ m)
        | .ok data =>
          match shapeSearchResults data with
          | .error e => (issued, "Error searching for device: " ++ e.msg)
          | .ok results => (issued, PyVal.pyRepr (.list results))
      else (issued, "Error: API returned status " ++ toString status)

/-- The `get_repair_steps` tool (`main.py` lines 85-149): validates the guide
id, issues at most one GET, special-cases 404 into the not-found message, and
otherwise mirrors the `try`/`except` chain. -/
def get_repair_steps (guide_id : Int) (oracle : HttpOutcome) :
    List Request × String :=
  if guide_id ≤ 0 then
    ([], "Error: guide_id must be a positive integer")
  else
    let url := BASE_URL ++ "/guides/" ++ toString guide_id
    let issued := [Request.mk "GET" url HEADERS]
    match oracle with
    | .timeout => (issued, timeoutMessage)
    | .otherError m => (issued, "Error fetching repair steps: " ++ m)
    | .response status body =>
      if 200 ≤ status && status ≤ 299 then
        match body with
        | .error m => (issued, "Error fetching repair steps: " ++ m)
        | .ok data =>
          match shapeGuide data with
          | .error e => (issued, "Error fetching repair steps: " ++ e.msg)
          | .ok g => (issued, PyVal.pyRepr g.toPyVal)
      else
        if status = 404 then
          (issued, "Error: Guide " ++ toString guide_id ++ " not found")
        else (issued, "Error: API returned status " ++ toString status)

attribute [simp] except_bind_ok except_bind_error

theorem except_bind_ok_iff {α β : Type} (m : Except PyErr α) (f : α → Except PyErr β)
    (b : β) : (m >>= f) = .ok b ↔ ∃ a, m = .ok a ∧ f a = .ok b := by
  cases m <;> simp

theorem exceptMap_ok_length {α : Type} (f : PyVal → Except PyErr α) :
    ∀ (l : List PyVal) (out : List α), exceptMap f l = .ok out → out.length = l.length := by
  intro l
  induction l with
  | nil =>
    intro out h
    simp [exceptMap] at h
    simp [← h]
  | cons x xs ih =>
    intro out h
    simp only [exceptMap, except_bind_ok_iff, Except.ok.injEq] at h
    obtain ⟨y, _, ys, hys, rfl⟩ := h
    simp [ih ys hys]

theorem exceptMap_ok_get {α : Type} (f : PyVal → Except PyErr α) :
    ∀ (l : List PyVal) (out : List α), exceptMap f l = .ok out →
      ∀ (i : Nat) (hi : i < l.length) (ho : i < out.length),
        f (l.get ⟨i, hi⟩) = .ok (out.get ⟨i, ho⟩) := by
  intro l
  induction l with
  | nil =>
    intro out _ i hi
    exact absurd hi (by simp)
  | cons x xs ih =>
    intro out h i hi ho
    simp only [exceptMap, except_bind_ok_iff, Except.ok.injEq] at h
    obtain ⟨y, hy, ys, hys, rfl⟩ := h
    match i with
    | 0 => simpa using hy
    | Nat.succ j =>
      exact ih ys hys j (Nat.lt_of_succ_lt_succ hi) (Nat.lt_of_succ_lt_succ ho)

theorem exceptMap_append_error {α : Type} (f : PyVal → Except PyErr α) (x : PyVal)
    (post : List PyVal) (e : PyErr) :
    ∀ (pre : List PyVal) (ps : List α), exceptMap f pre = .ok ps → f x = .error e →
      exceptMap f (pre ++ x :: post) = .error e := by
  intro pre
  induction pre with
  | nil =>
    intro ps _ hx
    simp [exceptMap, hx]
  | cons a pre' ih =>
    intro ps h hx
    simp only [exceptMap, except_bind_ok_iff, Except.ok.injEq] at h
    obtain ⟨y, hy, ys, hys, _⟩ := h
    simp [exceptMap, hy, ih ys hys hx]

theorem shapeGuide_ok_inv {d : PyVal} {g : GuideData} (h : shapeGuide d = .ok g) :
    pyGet d "title" .none = .ok g.title ∧ pyGet d "difficulty" .none = .ok g.difficulty
    ∧ guideTools d = .ok g.tools_required ∧ guideParts d = .ok g.parts_required
    ∧ guideSteps d = .ok g.steps := by
  simp only [shapeGuide, except_bind_ok_iff, Except.ok.injEq] at h
  obtain ⟨t, ht, df, hdf, tl, htl, pr, hpr, st, hst, rfl⟩ := h
  exact ⟨ht, hdf, htl, hpr, hst⟩

theorem shapeStep_ok_inv {step : PyVal} {sd : StepData} (h : shapeStep step = .ok sd) :
    pyGet step "orderby" .none = .ok sd.step_number
    ∧ stepInstruction step = .ok sd.instruction ∧ stepImage step = .ok sd.image := by
  simp only [shapeStep, except_bind_ok_iff, Except.ok.injEq] at h
  obtain ⟨sn, hsn, instr, hinstr, img, himg, rfl⟩ := h
  exact ⟨hsn, hinstr, himg⟩

theorem shapeSearchResults_results (rs : List PyVal) :
    shapeSearchResults (.dict [("results", .list rs)]) = exceptMap shapeSearchItem rs := rfl

theorem search_validation_false {name : String} (h : pyStrip name ≠ "") :
    (name.isEmpty || (pyStrip name).isEmpty) = false := by
  have h1 : (pyStrip name).isEmpty = false := by
    cases he : (pyStrip name).isEmpty
    · rfl
    · exact absurd ((String.isEmpty_iff _).mp he) h
  have h2 : name.isEmpty = false := by
    cases he : name.isEmpty
    · rfl
    · have hn : name = "" := (String.isEmpty_iff _).mp he
      subst hn
      exact absurd (by decide) h
  rw [h1, h2]
  rfl

theorem guideTools_missing {fs : List (String × PyVal)}
    (h : fs.lookup "tools" = Option.none) : guideTools (.dict fs) = .ok [] := by
  simp [guideTools, pyGet, h]
  rfl

theorem guideParts_missing {fs : List (String × PyVal)}
    (h : fs.lookup "parts" = Option.none) : guideParts (.dict fs) = .ok [] := by
  simp [guideParts, pyGet, h]
  rfl

theorem guideSteps_missing {fs : List (String × PyVal)}
    (h : fs.lookup "steps" = Option.none) : guideSteps (.dict fs) = .ok [] := by
  simp [guideSteps, pyGet, h]
  rfl

theorem stepImage_no_media {fs : List (String × PyVal)}
    (h : fs.lookup "media" = Option.none) : stepImage (.dict fs) = .ok PyVal.none := by
  simp [stepImage, pyGet, h]
  rfl

theorem stepImage_no_data {fs ms : List (String × PyVal)}
    (hm : fs.lookup "media" = some (.dict ms)) (hd : ms.lookup "data" = Option.none) :
    stepImage (.dict fs) = .ok PyVal.none := by
  simp [stepImage, pyGet, hm, hd]
  rfl

theorem exceptMap_text_raw (ss : List String) :
    exceptMap (fun l => pyGet l "text_raw" .none)
      (ss.map (fun s => PyVal.dict [("text_raw", PyVal.str s)])) = .ok (ss.map PyVal.str) := by
  induction ss with
  | nil => rfl
  | cons s rest ih =>
    simp only [List.map, exceptMap]
    rw [show pyGet (PyVal.dict [("text_raw", PyVal.str s)]) "text_raw" PyVal.none
        = Except.ok (PyVal.str s) from rfl, except_bind_ok, ih, except_bind_ok]

theorem pyJoinStrs_map_str (ts : List String) : ∀ i : Nat,
    pyJoinStrs i (ts.map PyVal.str) = .ok ts := by
  induction ts with
  | nil => intro i; rfl
  | cons t rest ih => intro i; simp [pyJoinStrs, ih]

theorem filter_truthy_map_str (ss : List String) :
    (ss.map PyVal.str).filter PyVal.truthy = (ss.filter (fun s => !s.isEmpty)).map PyVal.str := by
  induction ss with
  | nil => rfl
  | cons s rest ih =>
    cases he : s.isEmpty <;> simp [PyVal.truthy, he, ih]

theorem status_cond_false {status : Nat} (h : status < 200 ∨ 299 < status) :
    (200 ≤ status && status ≤ 299) = false := by
  simp only [Bool.and_eq_false_iff, decide_eq_false_iff_not, Nat.not_le]
  omega

/-- Claim C3: a device name that is empty or whitespace-only after trimming
yields exactly "Error: Device name cannot be empty" with no request issued,
and a non-positive guide id yields exactly
"Error: guide_id must be a positive integer" with no request issued —
both uniformly in the network oracle, i.e. without any network call. -/
theorem claim_C3 :
    (∀ (name : String) (oracle : HttpOutcome), pyStrip name = "" →
      search_device_manual name oracle = ([], "Error: Device name cannot be empty"))
    ∧ ∀ (gid : Int) (oracle : HttpOutcome), gid ≤ 0 →
      get_repair_steps gid oracle = ([], "Error: guide_id must be a positive integer") := by
  constructor
  · intro name oracle h
    have h2 : (pyStrip name).isEmpty = true := by rw [h]; rfl
    simp [search_device_manual, h2]
  · intro gid oracle h
    simp [get_repair_steps, h]

/-- Witness for C3 at the spec's own inputs. -/
theorem claim_C3_witness :
    search_device_manual "" .timeout = ([], "Error: Device name cannot be empty")
    ∧ search_device_manual "   " .timeout = ([], "Error: Device name cannot be empty")
    ∧ get_repair_steps 0 .timeout = ([], "Error: guide_id must be a positive integer")
    ∧ get_repair_steps (-5) .timeout = ([], "Error: guide_id must be a positive integer") :=
  ⟨claim_C3.1 "" .timeout rfl, claim_C3.1 "   " .timeout (by decide),
   claim_C3.2 0 .timeout (by decide), claim_C3.2 (-5) .timeout (by decide)⟩

/-- Claim C2: on the guide fetch, a 404 yields exactly
"Error: Guide \x7bid\x7d not found" and any other non-2xx status yields
"Error: API returned status \x7bcode\x7d"; the search operation returns the
generic status string for every non-2xx status, 404 included. -/
theorem claim_C2 (gid : Int) (status : Nat) (body : Except String PyVal) (name : String)
    (hgid : 0 < gid) (hname : pyStrip name ≠ "") (hst : status < 200 ∨ 299 < status) :
    ((get_repair_steps gid (.response status body)).2 =
      if status = 404 then "Error: Guide " ++ toString gid ++ " not found"
      else "Error: API returned status " ++ toString status)
    ∧ (search_device_manual name (.response status body)).2 =
      "Error: API returned status " ++ toString status := by
  have hc := status_cond_false hst
  have hg : ¬ gid ≤ 0 := by omega
  constructor
  · by_cases h4 : status = 404
    · subst h4
      simp [get_repair_steps, hg, hc]
    · simp [get_repair_steps, hg, hc, h4]
  · simp [search_device_manual, search_validation_false hname, hc]

/-- Witness for C2: 404 and 500 on the guide fetch, 404 on search. -/
theorem claim_C2_witness :
    (get_repair_steps 5 (.response 404 (.ok PyVal.none))).2 = "Error: Guide 5 not found"
    ∧ (get_repair_steps 5 (.response 500 (.ok PyVal.none))).2 = "Error: API returned status 500"
    ∧ (search_device_manual "x" (.response 404 (.ok PyVal.none))).2 =
      "Error: API returned status 404" := by
  refine ⟨?_, ?_, ?_⟩
  · exact ((claim_C2 5 404 (.ok PyVal.none) "x" (by decide) (by decide)
      (by omega)).1).trans (by rfl)
  · exact ((claim_C2 5 500 (.ok PyVal.none) "x" (by decide) (by decide)
      (by omega)).1).trans (by rfl)
  · exact ((claim_C2 5 404 (.ok PyVal.none) "x" (by decide) (by decide)
      (by omega)).2).trans (by rfl)

/-- Claim C7: for every device name that is non-empty after trimming, the
search operation issues exactly one GET request — to the suggest endpoint URL
with the trimmed name embedded and the fixed `doctypes=guide&limit=5` query
and fixed headers — whatever the outcome of that request is (so no retry is
ever attempted). -/
theorem claim_C7 (name : String) (oracle : HttpOutcome) (h : pyStrip name ≠ "") :
    (search_device_manual name oracle).1 =
      [Request.mk "GET" (BASE_URL ++ "/suggest/" ++ pyStrip name ++ "?doctypes=guide&limit=5")
        HEADERS] := by
  cases oracle with
  | timeout => simp [search_device_manual, search_validation_false h]
  | otherError m => simp [search_device_manual, search_validation_false h]
  | response status body =>
    simp only [search_device_manual, search_validation_false h, Bool.false_eq_true, if_false]
    split <;> (try split) <;> (try split) <;> rfl

/-- Witness for C7 on a concrete device name and outcome. -/
theorem claim_C7_witness :
    (search_device_manual "iPhone 14" .timeout).1 =
      [Request.mk "GET"
        (BASE_URL ++ "/suggest/" ++ pyStrip "iPhone 14" ++ "?doctypes=guide&limit=5") HEADERS] :=
  claim_C7 "iPhone 14" .timeout (by decide)

/-- Claim C8: both operations are total functions into text (no exception
crosses the boundary, by construction of the embedding), a timeout yields
exactly the 30-second message, and every other unexpected fault — transport
error, JSON decode failure, or an exception raised during shaping — is
converted to the operation's generic "Error searching for device: ..." /
"Error fetching repair steps: ..." string carrying `str(e)`. -/
theorem claim_C8 (name : String) (gid : Int) (m : String) (d1 d2 : PyVal)
    (es eg : PyErr) (hname : pyStrip name ≠ "") (hgid : 0 < gid)
    (hs : shapeSearchResults d1 = .error es) (hg : shapeGuide d2 = .error eg) :
    (search_device_manual name .timeout).2 =
      "Error: Request timed out after 30 seconds. Please try again."
    ∧ (search_device_manual name (.otherError m)).2 = "Error searching for device: " ++ m
    ∧ (search_device_manual name (.response 200 (.error m))).2 =
      "Error searching for device: " ++ m
    ∧ (search_device_manual name (.response 200 (.ok d1))).2 =
      "Error searching for device: " ++ es.msg
    ∧ (get_repair_steps gid .timeout).2 =
      "Error: Request timed out after 30 seconds. Please try again."
    ∧ (get_repair_steps gid (.otherError m)).2 = "Error fetching repair steps: " ++ m
    ∧ (get_repair_steps gid (.response 200 (.error m))).2 =
      "Error fetching repair steps: " ++ m
    ∧ (get_repair_steps gid (.response 200 (.ok d2))).2 =
      "Error fetching repair steps: " ++ eg.msg := by
  have hv := search_validation_false hname
  have hgl : ¬ gid ≤ 0 := by omega
  refine ⟨?_, ?_, ?_, ?_, ?_, ?_, ?_, ?_⟩ <;>
    simp [search_device_manual, get_repair_steps, hv, hgl, hs, hg, timeoutMessage]
  all_goals rfl

/-- Witness for C8 at concrete inputs (shaping a non-dict payload raises
`AttributeError`, whose message the boundary embeds in the generic string). -/
theorem claim_C8_witness :
    (search_device_manual "x" .timeout).2 =
      "Error: Request timed out after 30 seconds. Please try again."
    ∧ (search_device_manual "x" (.otherError "boom")).2 =
      "Error searching for device: boom"
    ∧ (search_device_manual "x" (.response 200 (.ok (PyVal.int 3)))).2 =
      "Error searching for device: " ++ noGetAttrMsg (PyVal.int 3)
    ∧ (get_repair_steps 1 (.response 200 (.ok (PyVal.int 3)))).2 =
      "Error fetching repair steps: " ++ noGetAttrMsg (PyVal.int 3) := by
  have h := claim_C8 "x" 1 "boom" (PyVal.int 3) (PyVal.int 3)
    (.attributeError (noGetAttrMsg (PyVal.int 3))) (.attributeError (noGetAttrMsg (PyVal.int 3)))
    (by decide) (by decide) rfl rfl
  exact ⟨h.1, h.2.1, h.2.2.2.1, h.2.2.2.2.2.2.2⟩

/-- Claim C9: shaping is deterministic and depends only on the response
payload — two invocations (even with different validated arguments) whose
successful 200 responses carry identical JSON payloads return byte-identical
text. -/
theorem claim_C9 (n1 n2 : String) (g1 g2 : Int) (body : Except String PyVal)
    (h1 : pyStrip n1 ≠ "") (h2 : pyStrip n2 ≠ "") (hg1 : 0 < g1) (hg2 : 0 < g2) :
    (search_device_manual n1 (.response 200 body)).2 =
      (search_device_manual n2 (.response 200 body)).2
    ∧ (get_repair_steps g1 (.response 200 body)).2 =
      (get_repair_steps g2 (.response 200 body)).2 := by
  have hga : ¬ g1 ≤ 0 := by omega
  have hgb : ¬ g2 ≤ 0 := by omega
  constructor
  · cases body with
    | error m =>
      simp [search_device_manual, search_validation_false h1, search_validation_false h2]
    | ok data =>
      cases hsd : shapeSearchResults data <;>
        simp [search_device_manual, search_validation_false h1, search_validation_false h2, hsd]
  · cases body with
    | error m => simp [get_repair_steps, hga, hgb]
    | ok data =>
      cases hgd : shapeGuide data <;> simp [get_repair_steps, hga, hgb, hgd]

/-- Witness for C9: different arguments, same payload, same output text. -/
theorem claim_C9_witness :
    (search_device_manual "a" (.response 200 (.ok PyVal.none))).2 =
      (search_device_manual "b" (.response 200 (.ok PyVal.none))).2
    ∧ (get_repair_steps 1 (.response 200 (.ok PyVal.none))).2 =
      (get_repair_steps 2 (.response 200 (.ok PyVal.none))).2 :=
  claim_C9 "a" "b" 1 2 (.ok PyVal.none) (by decide) (by decide) (by decide) (by decide)

/-- Claim C4: on a 200 search response the shaped sequence has exactly one
entry per element of the raw `results` list, in the order the service
returned them; `results: []` shapes to the empty sequence (not an error); and
an item with no `image` key shapes with a null `image_url` rather than
failing. -/
theorem claim_C4 :
    (∀ rs : List PyVal,
      shapeSearchResults (.dict [("results", .list rs)]) = exceptMap shapeSearchItem rs)
    ∧ (∀ (rs out : List PyVal), exceptMap shapeSearchItem rs = .ok out →
        out.length = rs.length
        ∧ ∀ (i : Nat) (hi : i < rs.length) (ho : i < out.length),
            shapeSearchItem (rs.get ⟨i, hi⟩) = .ok (out.get ⟨i, ho⟩))
    ∧ shapeSearchResults (.dict [("results", .list [])]) = .ok []
    ∧ ∀ fs : List (String × PyVal), fs.lookup "image" = Option.none →
        shapeSearchItem (.dict fs) = .ok (.dict
          [("guide_id", (fs.lookup "guideid").getD .none),
           ("title", (fs.lookup "title").getD .none),
           ("summary", (fs.lookup "summary").getD .none),
           ("image_url", PyVal.none)]) := by
  refine ⟨shapeSearchResults_results, ?_, rfl, ?_⟩
  · intro rs out h
    exact ⟨exceptMap_ok_length _ rs out h, exceptMap_ok_get _ rs out h⟩
  · intro fs h
    simp [shapeSearchItem, pyGet, h]

/-- Witness for C4: a one-item list shapes to one entry; an item with only a
title (no image key) shapes with a null image_url. -/
theorem claim_C4_witness :
    shapeSearchResults (.dict [("results", .list [PyVal.dict []])]) =
      exceptMap shapeSearchItem [PyVal.dict []]
    ∧ ([PyVal.dict [("guide_id", PyVal.none), ("title", PyVal.none), ("summary", PyVal.none),
        ("image_url", PyVal.none)]].length = [PyVal.dict []].length)
    ∧ shapeSearchItem (.dict [("title", PyVal.str "t")]) = .ok (.dict
        [("guide_id", PyVal.none), ("title", PyVal.str "t"), ("summary", PyVal.none),
         ("image_url", PyVal.none)]) := by
  refine ⟨claim_C4.1 [PyVal.dict []], ?_, ?_⟩
  · exact (claim_C4.2.1 [PyVal.dict []] _ rfl).1
  · exact (claim_C4.2.2.2 [("title", PyVal.str "t")] rfl).trans (by rfl)

/-- Claim C5: the shaped guide's `tools_required`, `parts_required` and
`steps` are genuine sequences (never null — in the embedding they are `List`s
by construction), and a guide response missing the corresponding source key
yields the empty sequence for that field. -/
theorem claim_C5 (fs : List (String × PyVal)) (g : GuideData)
    (h : shapeGuide (.dict fs) = .ok g) :
    (fs.lookup "tools" = Option.none → g.tools_required = [])
    ∧ (fs.lookup "parts" = Option.none → g.parts_required = [])
    ∧ (fs.lookup "steps" = Option.none → g.steps = []) := by
  obtain ⟨_, _, htl, hpr, hst⟩ := shapeGuide_ok_inv h
  refine ⟨fun hn => ?_, fun hn => ?_, fun hn => ?_⟩
  · rw [guideTools_missing hn] at htl
    exact (Except.ok.inj htl).symm
  · rw [guideParts_missing hn] at hpr
    exact (Except.ok.inj hpr).symm
  · rw [guideSteps_missing hn] at hst
    exact (Except.ok.inj hst).symm

/-- Witness for C5: a guide response with none of the three keys shapes with
all three sequences empty. -/
theorem claim_C5_witness :
    (GuideData.mk PyVal.none PyVal.none [] [] []).tools_required = []
    ∧ (GuideData.mk PyVal.none PyVal.none [] [] []).parts_required = []
    ∧ (GuideData.mk PyVal.none PyVal.none [] [] []).steps = [] :=
  ⟨(claim_C5 [] (GuideData.mk PyVal.none PyVal.none [] [] []) rfl).1 rfl,
   (claim_C5 [] (GuideData.mk PyVal.none PyVal.none [] [] []) rfl).2.1 rfl,
   (claim_C5 [] (GuideData.mk PyVal.none PyVal.none [] [] []) rfl).2.2 rfl⟩

/-- Claim C6: for a step whose `lines` all carry string `text_raw` values,
the shaped instruction is the single-space join of exactly the non-empty
fragments, in order (empty fragments dropped; all-empty joins to ""). -/
theorem claim_C6 (fs : List (String × PyVal)) (ss : List String)
    (h : fs.lookup "lines" =
      some (.list (ss.map (fun s => PyVal.dict [("text_raw", PyVal.str s)])))) :
    stepInstruction (.dict fs) =
      .ok (String.intercalate " " (ss.filter (fun s => !s.isEmpty))) := by
  have h1 : pyGet (.dict fs) "lines" (.list []) =
      .ok (.list (ss.map (fun s => PyVal.dict [("text_raw", PyVal.str s)]))) := by
    simp [pyGet, h]
  unfold stepInstruction
  rw [h1, except_bind_ok,
    show pyIter (PyVal.list (ss.map (fun s => PyVal.dict [("text_raw", PyVal.str s)]))) =
      Except.ok (ss.map (fun s => PyVal.dict [("text_raw", PyVal.str s)])) from rfl,
    except_bind_ok, exceptMap_text_raw, except_bind_ok, filter_truthy_map_str]
  unfold pyJoin
  rw [pyJoinStrs_map_str, except_bind_ok]

/-- Witness for C6 at the spec's example and at an all-empty line list. -/
theorem claim_C6_witness :
    stepInstruction (.dict [("lines", .list
      [.dict [("text_raw", PyVal.str "Remove")], .dict [("text_raw", PyVal.str "")],
       .dict [("text_raw", PyVal.str "the screw")]])]) = .ok "Remove the screw"
    ∧ stepInstruction (.dict [("lines", .list
        [.dict [("text_raw", PyVal.str "")]])]) = .ok "" := by
  constructor
  · exact (claim_C6 [("lines", .list
      [.dict [("text_raw", PyVal.str "Remove")], .dict [("text_raw", PyVal.str "")],
       .dict [("text_raw", PyVal.str "the screw")]])] ["Remove", "", "the screw"]
      rfl).trans (by rfl)
  · exact (claim_C6 [("lines", .list [.dict [("text_raw", PyVal.str "")]])] [""]
      rfl).trans (by rfl)

/-- Counterexample to claim C1 as stated: a step whose `media.data` key is
present but bound to an empty list does NOT shape to a null image — the
`[\x7b\x7d]` default of `.get("data", [\x7b\x7d])` applies only when the key
is absent, so `[0]` raises `IndexError` and the whole operation returns the
generic error string instead of a shaped guide. -/
theorem claim_C1_counterexample :
    stepImage (.dict [("media", .dict [("data", .list [])])]) =
      .error (.indexError "list index out of range")
    ∧ (get_repair_steps 1 (.response 200 (.ok (.dict [("steps",
        .list [.dict [("media", .dict [("data", .list [])])]])])))).2 =
      "Error fetching repair steps: list index out of range" :=
  ⟨rfl, rfl⟩

/-- Claim C1 (amended): shaping never throws for ABSENT optional keys — a
step with no `media` key, or whose `media` dict has no `data` key, shapes
with a null image (and a shaped step's image is exactly what the image
expression produced); but when `media.data` is present and empty, shaping
raises `IndexError`, which the operation boundary converts to the generic
"Error fetching repair steps: ..." string rather than letting it escape. -/
theorem claim_C1_amended :
    (∀ fs : List (String × PyVal), fs.lookup "media" = Option.none →
      stepImage (.dict fs) = .ok PyVal.none)
    ∧ (∀ fs ms : List (String × PyVal), fs.lookup "media" = some (.dict ms) →
        ms.lookup "data" = Option.none → stepImage (.dict fs) = .ok PyVal.none)
    ∧ (∀ (step : PyVal) (sd : StepData), shapeStep step = .ok sd →
        stepImage step = .ok sd.image)
    ∧ ∀ (gid : Int) (d : PyVal) (e : PyErr), 0 < gid → shapeGuide d = .error e →
        (get_repair_steps gid (.response 200 (.ok d))).2 =
          "Error fetching repair steps: " ++ e.msg := by
  refine ⟨fun fs h => stepImage_no_media h, fun fs ms hm hd => stepImage_no_data hm hd,
    fun step sd h => (shapeStep_ok_inv h).2.2, fun gid d e hgid hd => ?_⟩
  have hg : ¬ gid ≤ 0 := by omega
  simp [get_repair_steps, hg, hd]

/-- Witness for the amended C1: absent `media` key, absent `data` key, a
fully shaped step, and the converted IndexError of the counterexample input. -/
theorem claim_C1_amended_witness :
    stepImage (.dict []) = .ok PyVal.none
    ∧ stepImage (.dict [("media", .dict [])]) = .ok PyVal.none
    ∧ stepImage (.dict [("orderby", PyVal.int 1)]) =
      .ok (StepData.mk (PyVal.int 1) "" PyVal.none).image
    ∧ (get_repair_steps 1 (.response 200 (.ok (PyVal.int 3)))).2 =
      "Error fetching repair steps: " ++ PyErr.msg (.attributeError (noGetAttrMsg (PyVal.int 3))) :=
  ⟨claim_C1_amended.1 [] rfl,
   claim_C1_amended.2.1 [("media", .dict [])] [] rfl rfl,
   claim_C1_amended.2.2.1 (.dict [("orderby", PyVal.int 1)])
     (StepData.mk (PyVal.int 1) "" PyVal.none) rfl,
   claim_C1_amended.2.2.2 1 (PyVal.int 3) (.attributeError (noGetAttrMsg (PyVal.int 3)))
     (by decide) rfl⟩

/-- Claim C10 (implicit): when a search item's `image` key is present but
bound to JSON null, `item.get("image", \x7b\x7d)` returns `None` (the present
key wins over the default) and `.get("standard")` on it raises
`AttributeError`, so the whole call returns the generic
"Error searching for device: ..." string — no summaries at all; the
null-image default of claim C4 applies only when the key is absent. -/
theorem claim_C10 (name : String) (pre post ps : List PyVal)
    (fs : List (String × PyVal)) (hname : pyStrip name ≠ "")
    (hpre : exceptMap shapeSearchItem pre = .ok ps)
    (himg : fs.lookup "image" = some PyVal.none) :
    (search_device_manual name (.response 200 (.ok (.dict
      [("results", .list (pre ++ PyVal.dict fs :: post))])))).2 =
    "Error searching for device: " ++ noGetAttrMsg PyVal.none := by
  have hitem : shapeSearchItem (.dict fs) =
      .error (.attributeError (noGetAttrMsg PyVal.none)) := by
    simp [shapeSearchItem, pyGet, himg]
  have hres : shapeSearchResults (.dict [("results", .list (pre ++ PyVal.dict fs :: post))]) =
      .error (.attributeError (noGetAttrMsg PyVal.none)) := by
    rw [shapeSearchResults_results]
    exact exceptMap_append_error _ _ post _ pre ps hpre hitem
  simp [search_device_manual, search_validation_false hname, hres, PyErr.msg]

/-- Witness for C10: a single item whose image key holds null makes the whole
search call return the generic error string. -/
theorem claim_C10_witness :
    (search_device_manual "x" (.response 200 (.ok (.dict
      [("results", .list [PyVal.dict [("image", PyVal.none)]])])))).2 =
    "Error searching for device: " ++ noGetAttrMsg PyVal.none :=
  claim_C10 "x" [] [] [] [("image", PyVal.none)] (by decide) rfl rfl
